import Mathlib

/-!
Verification development for the dokusho-crawler study-data extraction
pipeline (src/modules/renshuu_extraction.py and src/main.py).

The Python code is shallowly embedded: JSON values are an inductive type,
HTTP responses are an oracle (a `World` mapping endpoints to responses),
Python exceptions are an explicit `Except` layer, and pydantic model
construction is a validating `Option`-returning function. Machine floats in
the source only carry exact small decimals here, so they are modelled as
rationals. Fields of each embedded function mirror the source line by line;
comments give the source locations.
-/

namespace Renshuu

/-- JSON values as delivered by the remote API. Numbers in every observed
payload are integers, so `num` carries an `Int`; objects are association
lists with distinct keys, mirroring Python dicts. -/
inductive Json where
  | null
  | bool (b : Bool)
  | num (n : Int)
  | str (s : String)
  | arr (xs : List Json)
  | obj (fields : List (String × Json))

/-- Python exception kinds that the embedded code can raise. -/
inductive PyExc where
  | valueError
  | typeError
  | keyError
  | indexError
  | attributeError
  | netError
deriving DecidableEq, Repr

/-- HTTP requests issued by the extraction code, used to state which
network calls a run performs. -/
inductive Req where
  | profile
  | schedules
  | termsList (sid : String)
  | termsPage (sid : String) (pg : Nat)
deriving DecidableEq, Repr

/-- Outcome of one `requests.get` call: a response whose body parses as
JSON, a response whose body makes `.json()` raise `ValueError`, or a
raised network-level exception (timeout, connection refused). -/
inductive HttpResp where
  | ok (status : Nat) (body : Json)
  | badJson (status : Nat)
  | netErr

/-- Lookup in a Python dict (association list), returning the default when
the key is absent: `d.get(k, dflt)`. -/
def dGetD (d : List (String × Json)) (k : String) (dflt : Json) : Json :=
  ((d.find? (fun kv => kv.1 == k)).map (fun kv => kv.2)).getD dflt

/-- Key-presence test on a Python dict: `k in d`. -/
def dHasKey (d : List (String × Json)) (k : String) : Bool :=
  d.any (fun kv => kv.1 == k)

/-- Python substring test `k in s` for strings. -/
def strContains (s k : String) : Bool :=
  k.isEmpty || (s.splitOn k).length ≥ 2

/-- Python membership `k in j` for a JSON value: key test on dicts,
element comparison on lists (a non-string element never equals a string),
substring test on strings, `TypeError` otherwise. -/
def jsonContains (j : Json) (k : String) : Except PyExc Bool :=
  match j with
  | .obj fs => .ok (dHasKey fs k)
  | .arr xs => .ok (xs.any (fun x => match x with | .str s => s == k | _ => false))
  | .str s => .ok (strContains s k)
  | _ => .error .typeError

/-- Python subscript `j[k]` with a string key: dict lookup
(`KeyError` when absent), `TypeError` on any non-dict. -/
def jsonIndex (j : Json) (k : String) : Except PyExc Json :=
  match j with
  | .obj fs =>
    match fs.find? (fun kv => kv.1 == k) with
    | some kv => .ok kv.2
    | none => .error .keyError
  | _ => .error .typeError

/-- Python `len(j)`: defined for lists, strings and dicts, `TypeError`
otherwise. -/
def jsonLen (j : Json) : Except PyExc Nat :=
  match j with
  | .arr xs => .ok xs.length
  | .str s => .ok s.length
  | .obj fs => .ok fs.length
  | _ => .error .typeError

/-- Python truthiness of a JSON value. -/
def pyTruthy (j : Json) : Bool :=
  match j with
  | .null => false
  | .bool b => b
  | .num n => n != 0
  | .str s => !s.isEmpty
  | .arr xs => !xs.isEmpty
  | .obj fs => !fs.isEmpty

/-- Python subscript `j[0]`: first element of a list (`IndexError` when
empty), first character of a string, `KeyError` on a dict (JSON keys are
strings, so the integer key 0 is absent), `TypeError` otherwise. -/
def pyIndex0 (j : Json) : Except PyExc Json :=
  match j with
  | .arr (x :: _) => .ok x
  | .arr [] => .error .indexError
  | .str s =>
    match s.toList with
    | c :: _ => .ok (.str (String.mk [c]))
    | [] => .error .indexError
  | .obj _ => .error .keyError
  | _ => .error .typeError

/-- Python iteration `for x in j`: elements of a list, characters of a
string, keys of a dict, `TypeError` otherwise. -/
def jsonIter (j : Json) : Except PyExc (List Json) :=
  match j with
  | .arr xs => .ok xs
  | .str s => .ok (s.toList.map (fun c => .str (String.mk [c])))
  | .obj fs => .ok (fs.map (fun kv => Json.str kv.1))
  | _ => .error .typeError

/-- Python `.get(k)` method call (default `None`): `AttributeError` when
the receiver is not a dict. -/
def pyGet (j : Json) (k : String) : Except PyExc Json :=
  match j with
  | .obj fs => .ok (dGetD fs k .null)
  | _ => .error .attributeError

/-- Python `.get(k, dflt)` method call: `AttributeError` when the receiver
is not a dict. -/
def pyGetD (j : Json) (k : String) (dflt : Json) : Except PyExc Json :=
  match j with
  | .obj fs => .ok (dGetD fs k dflt)
  | _ => .error .attributeError

/-- Value of a JSON number in a Python integer context (`bool` is an `int`
subtype in Python); `TypeError` for the other shapes, as raised by an
ordered comparison against an `int`. -/
def jsonAsInt (j : Json) : Except PyExc Int :=
  match j with
  | .num n => .ok n
  | .bool b => .ok (if b then 1 else 0)
  | _ => .error .typeError

/-- Python `str()` of a JSON value. The reprs of lists and dicts are
abstracted to fixed placeholder strings: the embedding only uses them as
opaque endpoint keys or as inputs that `float()` rejects, and both
placeholder shapes are rejected by the float parser below, exactly as the
real reprs are. -/
def pyStr (j : Json) : String :=
  match j with
  | .null => "None"
  | .bool true => "True"
  | .bool false => "False"
  | .num n => toString n
  | .str s => s
  | .arr _ => "[...]"
  | .obj _ => "\x7b...\x7d"

/-- Whitespace characters stripped by Python `str.strip()` (the ASCII
whitespace set; the payloads contain no exotic Unicode spacing). -/
def isPySpace (c : Char) : Bool :=
  c == ' ' || c == '\t' || c == '\n' || c == '\r' || c == '\x0b' || c == '\x0c'

/-- Python `str.strip()`. -/
def pyStrip (s : String) : String :=
  String.mk (((s.toList.dropWhile isPySpace).reverse.dropWhile isPySpace).reverse)

/-- Python `str.rstrip(chr)` for a single-character argument: drop every
trailing occurrence of that character. -/
def pyRstrip (s : String) (c : Char) : String :=
  String.mk ((s.toList.reverse.dropWhile (fun x => x == c)).reverse)

/-- Numeric value of a nonempty digit list. -/
def digitsVal (cs : List Char) : Nat :=
  cs.foldl (fun a c => a * 10 + (c.toNat - 48)) 0

/-- Python `float()` on a string, restricted to finite decimal numerals:
optional sign, then digits with an optional fractional part (at least one
digit overall). Surrounding whitespace is ignored as `float()` does.
`none` models the `ValueError` raised on anything else. The special
spellings inf and nan and exponent notation never occur in mastery data
and are not modelled. -/
def tryFloat (s : String) : Option Rat :=
  let cs := (pyStrip s).toList
  let (neg, cs') : Bool × List Char :=
    match cs with
    | '-' :: r => (true, r)
    | '+' :: r => (false, r)
    | _ => (false, cs)
  let intPart := cs'.takeWhile (fun c => c.isDigit)
  let rest := cs'.dropWhile (fun c => c.isDigit)
  let mkVal : Nat → Nat → Option Rat := fun num den =>
    some (Rat.divInt (if neg then -(num : Int) else (num : Int)) (den : Int))
  match rest with
  | [] =>
    if intPart.isEmpty then none
    else mkVal (digitsVal intPart) 1
  | '.' :: frac =>
    if frac.all (fun c => c.isDigit) && !(intPart.isEmpty && frac.isEmpty) then
      mkVal (digitsVal intPart * 10 ^ frac.length + digitsVal frac) (10 ^ frac.length)
    else none
  | _ => none

/-- Python `raw is None` test. -/
def isNull (j : Json) : Bool :=
  match j with
  | .null => true
  | _ => false

/-- Body of the try-block in the mastery parse (src/main.py lines 45-46):
`float(str(raw).strip().rstrip(pct)) if raw is not None else 0.0`, where a
failed `float()` raises `ValueError`. -/
def masteryTryBody (raw : Json) : Except PyExc Rat :=
  if isNull raw then .ok 0
  else
    match tryFloat (pyRstrip (pyStrip (pyStr raw)) '%') with
    | some q => .ok q
    | none => .error .valueError

/-- The defensive mastery parse of src/main.py lines 44-48: the
try-except catches `ValueError` and `TypeError` and yields 0.0; any other
exception kind would propagate (none can arise). -/
def masteryParse (raw : Json) : Except PyExc Rat :=
  match masteryTryBody raw with
  | .error .valueError => .ok 0
  | .error .typeError => .ok 0
  | r => r

deriving instance DecidableEq for Except

/-- VocabularyTerm pydantic model (src/modules/renshuu_extraction.py
lines 25-36). `user_data` is a free-form dict. -/
structure VocabularyTerm where
  id : String
  kanji_full : String := ""
  hiragana_full : String := ""
  edict_ent : Option String := some ""
  config : List String := []
  user_data : List (String × Json) := []
  reibuns : String := ""
  pitch : List String := []
  typeofspeech : String := ""
  def_ : List String := []

/-- KanjiTerm pydantic model (lines 39-51). -/
structure KanjiTerm where
  id : String
  kanji : String
  scount : String := ""
  definition : String := ""
  onyomi : String := ""
  kunyomi : String := ""
  user_data : List (String × Json) := []
  kanken : String := ""
  jlpt : String := ""
  radical_name : String := ""
  radical : String := ""

/-- GrammarTerm pydantic model (lines 54-62). -/
structure GrammarTerm where
  id : String
  title_english : String := ""
  title_japanese : String := ""
  user_data : List (String × Json) := []
  meaning : List (String × String) := []
  meaning_long : List (String × String) := []
  url : String := ""

/-- A normalized study term. The profile term lists in the source are
plain Python lists, so they can in principle hold any of the three model
kinds; the sum type records which. -/
inductive Term where
  | vocab (t : VocabularyTerm)
  | kanji (t : KanjiTerm)
  | grammar (t : GrammarTerm)

/-- Validation of a string field: pydantic accepts a `str` and rejects
other runtime types. -/
def asStr (j : Json) : Option String :=
  match j with
  | .str s => some s
  | _ => none

/-- Validation of an `Optional[str]` field. -/
def asOptStr (j : Json) : Option (Option String) :=
  match j with
  | .null => some none
  | .str s => some (some s)
  | _ => none

/-- Validation of a `List[str]` field. -/
def asStrList (j : Json) : Option (List String) :=
  match j with
  | .arr xs => xs.mapM asStr
  | _ => none

/-- Validation of a `Dict[str, str]` field. -/
def asStrDict (j : Json) : Option (List (String × String)) :=
  match j with
  | .obj fs => fs.mapM (fun kv => (asStr kv.2).map (fun v => (kv.1, v)))
  | _ => none

/-- Validation of a `Dict[str, Any]` field. -/
def asObj (j : Json) : Option (List (String × Json)) :=
  match j with
  | .obj fs => some fs
  | _ => none

/-- The `_create_vocabulary_term` normalizer (lines 90-107): every field is
read with a `.get` default, the pydantic constructor validates the runtime
types, and any exception (`AttributeError` on a non-dict record, a
validation error) is caught and yields `None`. -/
def create_vocabulary_term (term_data : Json) : Option VocabularyTerm :=
  match term_data with
  | .obj d =>
    match asStr (dGetD d "id" (.str "")), asStr (dGetD d "kanji_full" (.str "")),
          asStr (dGetD d "hiragana_full" (.str "")), asOptStr (dGetD d "edict_ent" (.str "")),
          asStrList (dGetD d "config" (.arr [])), asObj (dGetD d "user_data" (.obj [])),
          asStr (dGetD d "reibuns" (.str "")), asStrList (dGetD d "pitch" (.arr [])),
          asStr (dGetD d "typeofspeech" (.str "")), asStrList (dGetD d "def" (.arr [])) with
    | some i, some kf, some hf, some ee, some cf, some ud, some rb, some pt, some ts, some df =>
      some ⟨i, kf, hf, ee, cf, ud, rb, pt, ts, df⟩
    | _, _, _, _, _, _, _, _, _, _ => none
  | _ => none

/-- The `_create_kanji_term` normalizer (lines 110-128). -/
def create_kanji_term (term_data : Json) : Option KanjiTerm :=
  match term_data with
  | .obj d =>
    match asStr (dGetD d "id" (.str "")), asStr (dGetD d "kanji" (.str "")),
          asStr (dGetD d "scount" (.str "")), asStr (dGetD d "definition" (.str "")),
          asStr (dGetD d "onyomi" (.str "")), asStr (dGetD d "kunyomi" (.str "")),
          asObj (dGetD d "user_data" (.obj [])), asStr (dGetD d "kanken" (.str "")),
          asStr (dGetD d "jlpt" (.str "")), asStr (dGetD d "radical_name" (.str "")),
          asStr (dGetD d "radical" (.str "")) with
    | some i, some ka, some sc, some de, some oy, some ku, some ud, some kk, some jl, some rn, some ra =>
      some ⟨i, ka, sc, de, oy, ku, ud, kk, jl, rn, ra⟩
    | _, _, _, _, _, _, _, _, _, _, _ => none
  | _ => none

/-- The `_create_grammar_term` normalizer (lines 131-145). -/
def create_grammar_term (term_data : Json) : Option GrammarTerm :=
  match term_data with
  | .obj d =>
    match asStr (dGetD d "id" (.str "")), asStr (dGetD d "title_english" (.str "")),
          asStr (dGetD d "title_japanese" (.str "")), asObj (dGetD d "user_data" (.obj [])),
          asStrDict (dGetD d "meaning" (.obj [])), asStrDict (dGetD d "meaning_long" (.obj [])),
          asStr (dGetD d "url" (.str "")) with
    | some i, some te, some tj, some ud, some me, some ml, some u =>
      some ⟨i, te, tj, ud, me, ml, u⟩
    | _, _, _, _, _, _, _ => none
  | _ => none

/-- The `_detect_schedule_type` classifier (lines 65-87): truthiness test,
then structural inspection of the first record, kanji before vocabulary
before grammar, first match wins. -/
def detect_schedule_type (terms : Json) : Except PyExc String := do
  if !pyTruthy terms then return "unknown"
  let first ← pyIndex0 terms
  if (← jsonContains first "kanji") && (← jsonContains first "onyomi") then
    return "kanji"
  if (← jsonContains first "kanji_full") && (← jsonContains first "hiragana_full") then
    return "vocabulary"
  if (← jsonContains first "title_japanese") && (← jsonContains first "url") then
    return "grammar"
  return "unknown"

/-- Dispatch of one raw record to the normalizer selected by the detected
schedule type; an unknown type skips the record (lines 308-320). -/
def normalize_record (ty : String) (td : Json) : Option Term :=
  if ty == "vocabulary" then (create_vocabulary_term td).map Term.vocab
  else if ty == "kanji" then (create_kanji_term td).map Term.kanji
  else if ty == "grammar" then (create_grammar_term td).map Term.grammar
  else none

/-- The `_process_terms_from_response` pipeline stage (lines 296-322):
classify once from the first record, then normalize every record, dropping
the ones whose construction fails. -/
def process_terms_from_response (terms_data : Json) : Except PyExc (String × List Term) := do
  let ty ← detect_schedule_type terms_data
  let items ← jsonIter terms_data
  return (ty, items.filterMap (normalize_record ty))

/-- The remote service as an oracle: the response each endpoint returns
during one run. `termsResp` is the page-1 term-list endpoint
schedule/id/list; `pageResp` is the paged endpoint with an explicit pg
query parameter. -/
structure World where
  profileResp : HttpResp
  schedulesResp : HttpResp
  termsResp : String → HttpResp
  pageResp : String → Nat → HttpResp

/-- The Python value returned by `_extract_terms_from_schedule`: the
annotated `(schedule_type, terms)` tuple, or — on the early non-200 return
at line 345 — a bare list. -/
inductive SchedResult where
  | bare (terms : List Term)
  | tup (ty : String) (terms : List Term)

/-- The `_fetch_terms_from_page` helper (lines 402-434). The first
component is the request trace (always exactly one page request); the
second is the outcome: `[]` on a non-200 status or an unparsable or
unexpected body, the processed records when the body nests them under
contents.terms, and a propagating exception for a raised network error or
a body shape whose inspection raises outside `ValueError`. -/
def fetch_terms_from_page (w : World) (sid : String) (page : Nat) :
    List Req × Except PyExc (List Term) :=
  ([.termsPage sid page],
   match w.pageResp sid page with
   | .netErr => .error .netError
   | .badJson _ => .ok []
   | .ok status body =>
     if status != 200 then .ok []
     else
       match jsonContains body "contents" with
       | .error e => .error e
       | .ok hasC =>
         match (if hasC then
                  match jsonIndex body "contents" with
                  | .error e => .error e
                  | .ok c => jsonContains c "terms"
                else .ok false : Except PyExc Bool) with
         | .error e => .error e
         | .ok true =>
           match jsonIndex body "contents" with
           | .error e => .error e
           | .ok c =>
             match jsonIndex c "terms" with
             | .error e => .error e
             | .ok termsJ =>
               match jsonLen termsJ with
               | .error e => .error e
               | .ok _ =>
                 match process_terms_from_response termsJ with
                 | .error e => .error e
                 | .ok r => .ok r.2
         | .ok false => .ok [])

/-- The page loop of lines 371-373: fetch each remaining page in order,
extending the accumulated list; an exception raised by a page fetch stops
the loop and propagates. -/
def fetch_pages_loop (w : World) (sid : String) :
    List Nat → List Term → List Req × Except PyExc (List Term)
  | [], acc => ([], .ok acc)
  | pg :: rest, acc =>
    match (fetch_terms_from_page w sid pg).2 with
    | .error e => ((fetch_terms_from_page w sid pg).1, .error e)
    | .ok ts =>
      ((fetch_terms_from_page w sid pg).1 ++ (fetch_pages_loop w sid rest (acc ++ ts)).1,
       (fetch_pages_loop w sid rest (acc ++ ts)).2)

/-- The try-block of `_extract_terms_from_schedule` (lines 347-394) on a
successfully parsed 200 body: envelope dispatch, pagination, and page
processing. The request trace collects the page-2..N fetches. -/
def handle_terms_body (w : World) (sid : String) (body : Json) :
    List Req × Except PyExc SchedResult :=
  match jsonContains body "contents" with
  | .error e => ([], .error e)
  | .ok hasC =>
    match (if hasC then
             match jsonIndex body "contents" with
             | .error e => .error e
             | .ok c => jsonContains c "terms"
           else .ok false : Except PyExc Bool) with
    | .error e => ([], .error e)
    | .ok true =>
      match jsonIndex body "contents" with
      | .error e => ([], .error e)
      | .ok contents =>
        match jsonIndex contents "terms" with
        | .error e => ([], .error e)
        | .ok termsJ =>
          match jsonContains contents "total_pg" with
          | .error e => ([], .error e)
          | .ok true =>
            match jsonIndex contents "total_pg" with
            | .error e => ([], .error e)
            | .ok totalPgJ =>
              match jsonIndex contents "pg" with
              | .error e => ([], .error e)
              | .ok _pgJ =>
                match jsonLen termsJ with
                | .error e => ([], .error e)
                | .ok _ =>
                  match process_terms_from_response termsJ with
                  | .error e => ([], .error e)
                  | .ok pr =>
                    match jsonAsInt totalPgJ with
                    | .error e => ([], .error e)
                    | .ok totalPages =>
                      if 1 < totalPages then
                        let r := fetch_pages_loop w sid
                          (List.range' 2 (totalPages - 1).toNat) pr.2
                        (r.1, r.2.map (fun all => .tup pr.1 all))
                      else ([], .ok (.tup pr.1 pr.2))
          | .ok false =>
            match process_terms_from_response termsJ with
            | .error e => ([], .error e)
            | .ok pr => ([], .ok (.tup pr.1 pr.2))
    | .ok false =>
      match jsonContains body "terms" with
      | .error e => ([], .error e)
      | .ok true =>
        match jsonIndex body "terms" with
        | .error e => ([], .error e)
        | .ok termsJ =>
          match process_terms_from_response termsJ with
          | .error e => ([], .error e)
          | .ok pr => ([], .ok (.tup pr.1 pr.2))
      | .ok false => ([], .ok (.tup "unknown" []))

/-- The `_extract_terms_from_schedule` helper (lines 325-399). A non-200
status returns the bare accumulated list (line 345, diverging from the
annotated tuple type); a 200 body that fails to parse is caught by the
`except ValueError` and yields the unknown-typed empty tuple; a raised
network error propagates. -/
def extract_terms_from_schedule (w : World) (sid : String) :
    List Req × Except PyExc SchedResult :=
  match w.termsResp sid with
  | .netErr => ([.termsList sid], .error .netError)
  | .badJson status =>
    if status != 200 then ([.termsList sid], .ok (.bare []))
    else ([.termsList sid], .ok (.tup "unknown" []))
  | .ok status body =>
    if status != 200 then ([.termsList sid], .ok (.bare []))
    else
      let r := handle_terms_body w sid body
      (Req.termsList sid :: r.1, r.2)

/-- Per-page record yield as observed through `_fetch_terms_from_page`: a
failed page contributes the empty list. -/
def pageYield (w : World) (sid : String) (page : Nat) : List Term :=
  match (fetch_terms_from_page w sid page).2 with
  | .ok ts => ts
  | .error _ => []

/-- The `_parse_schedules_response` helper (lines 437-468) on a parsed
body: a bare list is returned as is, a dict is unwrapped through the
schedules or data key, anything else yields the empty list with a
warning. -/
def parse_schedules_response (body : Json) : Json :=
  match body with
  | .arr xs => .arr xs
  | .obj fs =>
    if dHasKey fs "schedules" then dGetD fs "schedules" .null
    else if dHasKey fs "data" then dGetD fs "data" .null
    else .arr []
  | _ => .arr []

/-- UserProfile pydantic model (lines 15-22). The three term lists are
plain Python lists mutated in place by `extend`. -/
structure UserProfile where
  id : String
  real_name : String
  level_progress_percs : List (String × List (String × Int))
  vocabulary_terms : List Term := []
  kanji_terms : List Term := []
  grammar_terms : List Term := []

/-- The dispatch of lines 519-524: extend the profile list matching the
classified type; any other type (unknown included) extends nothing. -/
def applyTerms (p : UserProfile) (ty : String) (ts : List Term) : UserProfile :=
  if ty == "vocabulary" then { p with vocabulary_terms := p.vocabulary_terms ++ ts }
  else if ty == "kanji" then { p with kanji_terms := p.kanji_terms ++ ts }
  else if ty == "grammar" then { p with grammar_terms := p.grammar_terms ++ ts }
  else p

/-- Lines 504-516 for one schedule descriptor, up to the terms to append:
`none` means the iteration continues without touching the profile (missing
id, or the bare-list return unpacking into exactly two values and the
resulting non-string comparing unequal to every type tag); unpacking a
bare list of any other length raises `ValueError`. -/
def schedule_prelude (w : World) (sched : Json) :
    Except PyExc (Option (String × List Term)) := do
  let sidJ ← pyGet sched "id"
  let _nameJ ← pyGetD sched "name" (.str "Unknown")
  let termsInfo ← pyGetD sched "terms" (.obj [])
  let _total ← pyGetD termsInfo "total_count" (.num 0)
  let _studied ← pyGetD termsInfo "studied_count" (.num 0)
  if !pyTruthy sidJ then return none
  match (extract_terms_from_schedule w (pyStr sidJ)).2 with
  | .error e => throw e
  | .ok (.bare l) => if l.length == 2 then return none else throw .valueError
  | .ok (.tup ty ts) => return some (ty, ts)

/-- One iteration of the schedule loop (lines 503-524). -/
def processOneSchedule (w : World) (sched : Json) (p : UserProfile) :
    Except PyExc UserProfile :=
  match schedule_prelude w sched with
  | .error e => .error e
  | .ok none => .ok p
  | .ok (some r) => .ok (applyTerms p r.1 r.2)

/-- The schedule loop of `extract_study_terms`. An exception carries the
profile as mutated so far, because the Python lists are extended in
place. -/
def schedules_loop (w : World) :
    List Json → UserProfile → Except (PyExc × UserProfile) UserProfile
  | [], p => .ok p
  | sched :: rest, p =>
    match processOneSchedule w sched p with
    | .error e => .error (e, p)
    | .ok p' => schedules_loop w rest p'

/-- Whether the schedule-list fetch completed with a non-200 status: the
only condition under which `extract_study_terms` returns `None`
(line 495-498). -/
def scheduleListNon200 (w : World) : Bool :=
  match w.schedulesResp with
  | .ok status _ => status != 200
  | .badJson status => status != 200
  | .netErr => false

/-- The `extract_study_terms` entry point (lines 471-535). The outer
try-except catches every exception and returns the profile as populated so
far, so the function is total; `None` is produced only by the non-200
schedule-list branch. -/
def extract_study_terms (w : World) (p : UserProfile) : Option UserProfile :=
  match w.schedulesResp with
  | .netErr => some p
  | .badJson status =>
    if status != 200 then none
    else some p
  | .ok status body =>
    if status != 200 then none
    else
      let schedules := parse_schedules_response body
      match jsonLen schedules with
      | .error _ => some p
      | .ok _ =>
        match jsonIter schedules with
        | .error _ => some p
        | .ok items =>
          match schedules_loop w items p with
          | .ok p' => some p'
          | .error er => some er.2

/-- The JLPT-level loop of src/main.py lines 33-39, with the `break`
rendered as structural recursion over the remaining levels: the first
level whose vocab progress is at least 30 wins, the preassigned default
N5 survives when none does. -/
def jlpt_loop (vocab : List (String × Int)) : List Nat → String
  | [] => "N5"
  | l :: rest =>
    if (30 : Int) ≤ (((vocab.find? (fun kv => kv.1 == "n" ++ toString l)).map
        (fun kv => kv.2)).getD 0) then "N" ++ toString l
    else jlpt_loop vocab rest

/-- JLPT level detection over the profile progress mapping
(src/main.py lines 33-39). -/
def detect_jlpt (lpp : List (String × List (String × Int))) : String :=
  jlpt_loop (((lpp.find? (fun kv => kv.1 == "vocab")).map (fun kv => kv.2)).getD [])
    [1, 2, 3, 4, 5]

/-- Restatement of the spec wording for tier detection: the first tier in
the order n1, n2, n3, n4, n5 whose vocabulary progress is at least the
threshold 30, defaulting to N5. Stated independently of the loop embedding
so that the two can be compared. -/
def firstQualifyingTier (lpp : List (String × List (String × Int))) : String :=
  let vocab := ((lpp.find? (fun kv => kv.1 == "vocab")).map (fun kv => kv.2)).getD []
  match [1, 2, 3, 4, 5].find? (fun l =>
      (30 : Int) ≤ (((vocab.find? (fun kv => kv.1 == "n" ++ toString l)).map
        (fun kv => kv.2)).getD 0)) with
  | some l => "N" ++ toString l
  | none => "N5"

/-- The `user_data` attribute, present on all three term models. -/
def term_user_data : Term → List (String × Json)
  | .vocab t => t.user_data
  | .kanji t => t.user_data
  | .grammar t => t.user_data

/-- The `kanji_full` attribute access of src/main.py line 50:
`AttributeError` on the non-vocabulary models. -/
def term_kanji_full : Term → Except PyExc String
  | .vocab t => .ok t.kanji_full
  | _ => .error .attributeError

/-- The `hiragana_full` attribute access of src/main.py line 50. -/
def term_hiragana_full : Term → Except PyExc String
  | .vocab t => .ok t.hiragana_full
  | _ => .error .attributeError

/-- The mastered-vocabulary loop of src/main.py lines 42-51: parse the
mastery defensively, and render every term reaching 50 as a display
entry, appending in iteration order. -/
def mastered_loop : List Term → List String → Except PyExc (List String)
  | [], acc => .ok acc
  | t :: rest, acc => do
    let raw := dGetD (term_user_data t) "mastery_avg_perc" (.num 0)
    let m ← masteryParse raw
    if (50 : Rat) ≤ m then
      let kf ← term_kanji_full t
      let hf ← term_hiragana_full t
      mastered_loop rest (acc ++ [kf ++ " (" ++ hf ++ ")"])
    else
      mastered_loop rest acc

/-- The `extract_user_learning_data` function of src/main.py lines 25-57:
JLPT level, the joined mastered-vocabulary display string, and the
mastered count. -/
def extract_user_learning_data (p : UserProfile) :
    Except PyExc (String × String × Nat) := do
  let jlpt := detect_jlpt p.level_progress_percs
  let mastered ← mastered_loop p.vocabulary_terms []
  return (jlpt, String.intercalate ", " mastered, mastered.length)

/-- The mastery value of a term as the defensive parse computes it. -/
def mastery_of (t : Term) : Rat :=
  match masteryParse (dGetD (term_user_data t) "mastery_avg_perc" (.num 0)) with
  | .ok q => q
  | .error _ => 0

/-- The mastered-vocabulary display list stated declaratively: one entry
per vocabulary term whose parsed mastery reaches 50, in list order,
duplicates retained. -/
def mastered_display (ts : List Term) : List String :=
  ts.filterMap (fun t =>
    match t with
    | .vocab v =>
      if (50 : Rat) ≤ mastery_of (.vocab v) then
        some (v.kanji_full ++ " (" ++ v.hiragana_full ++ ")")
      else none
    | _ => none)

/-- Validation of the `Dict[str, Dict[str, int]]` progress field. -/
def asLpp (j : Json) : Option (List (String × List (String × Int))) :=
  match j with
  | .obj fs => fs.mapM (fun kv =>
      match kv.2 with
      | .obj inner =>
        ((inner.mapM (fun kv2 =>
            match kv2.2 with
            | .num n => some (kv2.1, n)
            | _ => (none : Option (String × Int)))) :
          Option (List (String × Int))).map (fun l => (kv.1, l))
      | _ => none)
  | _ => none

/-- Construction of the `UserProfile` model from a parsed 200 profile body
(lines 269-273); any validation failure or attribute error is caught by
the surrounding handlers and yields `None`. -/
def build_user_profile (body : Json) : Option UserProfile :=
  match body with
  | .obj d =>
    match asStr (dGetD d "id" (.str "")), asStr (dGetD d "real_name" (.str "")),
          asLpp (dGetD d "level_progress_percs" (.obj [])) with
    | some i, some rn, some lpp => some ⟨i, rn, lpp, [], [], []⟩
    | _, _, _ => none
  | _ => none

/-- The `extract_user_profile` entry point (lines 230-293). The first
component is the request trace: the blank-credential guard of lines
245-247 returns before the single profile request is issued; every
failure mode afterwards is logged and returns `None`. -/
def extract_user_profile (resp : HttpResp) (api_key : String) :
    List Req × Option UserProfile :=
  if api_key == "" || pyStrip api_key == "" then ([], none)
  else
    ([Req.profile],
     match resp with
     | .netErr => none
     | .badJson _ => none
     | .ok status body =>
       if status == 200 then build_user_profile body
       else none)

/-! Concrete fixtures for counterexamples and witnesses. -/

/-- A well-formed vocabulary record with id 7. -/
def vRec : Json :=
  .obj [("id", .str "7"), ("kanji_full", .str "水"), ("hiragana_full", .str "みず")]

/-- The term the normalizer builds from `vRec`. -/
def vTerm : VocabularyTerm :=
  ⟨"7", "水", "みず", some "", [], [], "", [], "", []⟩

/-- A vocabulary record lacking the id field. -/
def vRecNoId : Json :=
  .obj [("kanji_full", .str "火"), ("hiragana_full", .str "ひ")]

/-- The term the normalizer builds from `vRecNoId`: id defaults to the
empty string. -/
def vTermNoId : VocabularyTerm :=
  ⟨"", "火", "ひ", some "", [], [], "", [], "", []⟩

/-- A second well-formed vocabulary record. -/
def vRec2 : Json :=
  .obj [("id", .str "8"), ("kanji_full", .str "山"), ("hiragana_full", .str "やま")]

/-- The term the normalizer builds from `vRec2`. -/
def vTerm2 : VocabularyTerm :=
  ⟨"8", "山", "やま", some "", [], [], "", [], "", []⟩

/-- A kanji-shaped record (kanji glyph plus onyomi reading). -/
def kRec : Json :=
  .obj [("id", .str "21"), ("kanji", .str "日"), ("onyomi", .str "ニチ")]

/-- A profile with no terms. -/
def emptyP : UserProfile := ⟨"1627619", "ススワタリ", [], [], [], []⟩

/-- World for claim C1: the schedule list succeeds with two schedules; the
term fetch of schedule s1 returns status 500, the term fetch of schedule
s2 succeeds with one vocabulary record in the flat envelope. -/
def W1 : World where
  profileResp := .ok 200 (.obj [])
  schedulesResp := .ok 200 (.arr [.obj [("id", .str "s1")], .obj [("id", .str "s2")]])
  termsResp := fun sid =>
    if sid == "s1" then .ok 500 (.obj [])
    else .ok 200 (.obj [("terms", .arr [vRec])])
  pageResp := fun _ _ => .ok 404 (.obj [])

/-- Variant of `W1` where the s1 term fetch raises a network error instead
of returning a status. -/
def W1n : World where
  profileResp := .ok 200 (.obj [])
  schedulesResp := .ok 200 (.arr [.obj [("id", .str "s1")], .obj [("id", .str "s2")]])
  termsResp := fun sid =>
    if sid == "s1" then .netErr
    else .ok 200 (.obj [("terms", .arr [vRec])])
  pageResp := fun _ _ => .ok 404 (.obj [])

/-- World for claim C3: the page-2 response of schedule s carries the flat
terms-at-top-level envelope with one processable vocabulary record. -/
def W3 : World where
  profileResp := .ok 200 (.obj [])
  schedulesResp := .ok 200 (.arr [])
  termsResp := fun _ => .ok 200 (.obj [])
  pageResp := fun _ _ => .ok 200 (.obj [("terms", .arr [vRec])])

/-- World for the C3 witness: three schedules exercising the three page-1
envelopes, and two paged responses exercising both page-k branches. -/
def W3w : World where
  profileResp := .ok 200 (.obj [])
  schedulesResp := .ok 200 (.arr [])
  termsResp := fun sid =>
    if sid == "a" then .ok 200 (.obj [("contents", .obj [("terms", .arr [vRec])])])
    else if sid == "b" then .ok 200 (.obj [("terms", .arr [vRec2])])
    else .ok 200 (.obj [("other", .num 1)])
  pageResp := fun _ pg =>
    if pg == 2 then .ok 200 (.obj [("contents", .obj [("terms", .arr [vRec2])])])
    else .ok 200 (.obj [("terms", .arr [vRec])])

/-- A paginated page-1 term-list body: records under contents.terms with
the sibling pagination fields pg and total_pg. -/
def pagedBody (items : List Json) (total : Nat) : Json :=
  .obj [("contents", .obj [("terms", .arr items), ("pg", .num 1),
    ("total_pg", .num (total : Int))])]

/-- A page-1 term-list body with records under contents.terms and no
pagination metadata. -/
def unpagedBody (items : List Json) : Json :=
  .obj [("contents", .obj [("terms", .arr items)])]

/-- World for the C6 witness: schedule s reports three pages; page 2
succeeds with one record, page 3 fails with status 500. -/
def W6 : World where
  profileResp := .ok 200 (.obj [])
  schedulesResp := .ok 200 (.arr [])
  termsResp := fun _ => .ok 200 (pagedBody [vRec] 3)
  pageResp := fun _ pg =>
    if pg == 2 then .ok 200 (.obj [("contents", .obj [("terms", .arr [vRec2])])])
    else .ok 500 (.obj [])

/-- World for the C6 witness, single-page part: the response omits
pagination metadata. -/
def W6s : World where
  profileResp := .ok 200 (.obj [])
  schedulesResp := .ok 200 (.arr [])
  termsResp := fun _ => .ok 200 (unpagedBody [vRec])
  pageResp := fun _ _ => .ok 500 (.obj [])

/-- A vocabulary term with mastery 60. -/
def vMastered : VocabularyTerm :=
  ⟨"9", "水", "みず", some "", [], [("mastery_avg_perc", .str "60")], "", [], "", []⟩

/-- Profile for the C4 counterexample: the same mastered vocabulary term
appears twice. -/
def P4 : UserProfile :=
  ⟨"u", "n", [], [.vocab vMastered, .vocab vMastered], [], []⟩

/-- World for the C10 witness: the schedule-list fetch returns 404. -/
def WNon : World where
  profileResp := .ok 200 (.obj [])
  schedulesResp := .ok 404 .null
  termsResp := fun _ => .ok 200 (.obj [])
  pageResp := fun _ _ => .ok 200 (.obj [])

/-- Vocab-domain progress of the mock profile (lines 158-164 of the
source): n1 0, n2 1, n3 6, n4 31, n5 100. -/
def mockLpp : List (String × List (String × Int)) :=
  [("vocab", [("n1", 0), ("n2", 1), ("n3", 6), ("n4", 31), ("n5", 100)])]

/-- Frame relation between an input profile and an output profile of
`extract_study_terms`: the identity fields are untouched and each term
list has only been extended at its end. -/
def ProfileExtends (p q : UserProfile) : Prop :=
  q.id = p.id ∧ q.real_name = p.real_name ∧
  q.level_progress_percs = p.level_progress_percs ∧
  (∃ s, q.vocabulary_terms = p.vocabulary_terms ++ s) ∧
  (∃ s, q.kanji_terms = p.kanji_terms ++ s) ∧
  (∃ s, q.grammar_terms = p.grammar_terms ++ s)

/-! Helper lemmas. -/

theorem masteryTryBody_err (raw : Json) (e : PyExc)
    (h : masteryTryBody raw = .error e) : e = .valueError := by
  unfold masteryTryBody at h
  split at h
  · exact Except.noConfusion h
  · split at h
    · exact Except.noConfusion h
    · injection h with h2
      exact h2.symm

theorem dGetD_not_hasKey :
    ∀ (d : List (String × Json)) (k : String) (dflt : Json),
      dHasKey d k = false → dGetD d k dflt = dflt
  | [], _, _, _ => rfl
  | kv :: t, k, dflt, h => by
    simp only [dHasKey, List.any_cons, Bool.or_eq_false_iff] at h
    simp only [dGetD, List.find?]
    rw [h.1]
    exact dGetD_not_hasKey t k dflt h.2

/-! Claim C1. The spec says a fatal failure on one schedule's term fetch
leaves the remaining schedules processed. In the code,
`_extract_terms_from_schedule` returns a bare list on a non-200 status
(line 345) although its annotation and docstring promise a
`(schedule_type, terms)` tuple; the caller's tuple unpacking at line 516
then raises `ValueError`, the top-level `except` at line 533 swallows it
and returns early, and the remaining schedules are never processed. A
raised network error on the first term-list call propagates to the same
top-level handler with the same early return. -/

/-- Claim C1, evaluated at the failing input: in `W1`, schedule s1's term
fetch returns status 500 and schedule s2's would contribute one vocabulary
term, yet the full run returns the input profile untouched — s2 is never
processed. The bare-list return of s1 (the non-tuple) is exhibited, as is
the identical abort under a raised network error (`W1n`). -/
theorem schedule_failure_aborts_remaining :
    extract_study_terms W1 emptyP = some emptyP ∧
    extract_study_terms W1n emptyP = some emptyP ∧
    (extract_terms_from_schedule W1 "s1").2 = .ok (.bare []) ∧
    (extract_terms_from_schedule W1 "s2").2 =
      .ok (.tup "vocabulary" [.vocab vTerm]) :=
  ⟨rfl, rfl, rfl, rfl⟩

/-! Claim C2. The spec says a record lacking the id field is dropped with
a warning. In the code every `_create_*_term` reads the id with
`.get with default empty string`, so an id-less record is normalized with
an empty id and kept; records are dropped only when construction raises. -/

/-- Counterexample to claim C2: a vocabulary page whose first record lacks
an id yields that record in the normalized output (with id defaulted to
the empty string) — it is not dropped. -/
theorem record_without_id_is_kept :
    process_terms_from_response (.arr [vRecNoId, vRec]) =
      .ok ("vocabulary", [.vocab vTermNoId, .vocab vTerm]) ∧
    vTermNoId.id = "" :=
  ⟨rfl, rfl⟩

/-- Claim C2 as amended: a raw record lacking an id is normalized with the
id defaulted to the empty string and retained whenever construction
succeeds; a record is dropped only when construction fails, and in either
case the remaining records of the page are still processed. -/
theorem normalizer_missing_id_kept (d : List (String × Json)) (rest : List Json)
    (hid : dHasKey d "id" = false) :
    (∀ t, create_vocabulary_term (.obj d) = some t → t.id = "") ∧
    (detect_schedule_type (.arr (.obj d :: rest)) = .ok "vocabulary" →
      process_terms_from_response (.arr (.obj d :: rest)) =
        .ok ("vocabulary",
          ((create_vocabulary_term (.obj d)).map Term.vocab).toList ++
            rest.filterMap (normalize_record "vocabulary"))) := by
  constructor
  · intro t ht
    simp only [create_vocabulary_term] at ht
    rw [dGetD_not_hasKey d "id" (.str "") hid] at ht
    simp only [asStr] at ht
    split at ht
    · injection ht with ht2
      subst ht2
      simp_all
    · exact Option.noConfusion ht
  · intro hdet
    unfold process_terms_from_response
    simp only [Bind.bind, Except.bind, hdet, jsonIter, List.filterMap_cons]
    cases hc : create_vocabulary_term (.obj d) <;>
      simp [normalize_record, hc, pure, Except.pure]

/-- Witness for the amended claim C2 at a concrete id-less record. -/
theorem normalizer_missing_id_kept_witness :
    (∀ t, create_vocabulary_term vRecNoId = some t → t.id = "") ∧
    process_terms_from_response (.arr [vRecNoId, vRec]) =
      .ok ("vocabulary",
        ((create_vocabulary_term vRecNoId).map Term.vocab).toList ++
          [vRec].filterMap (normalize_record "vocabulary")) :=
  ⟨(normalizer_missing_id_kept
      [("kanji_full", .str "火"), ("hiragana_full", .str "ひ")] [vRec]
      (by decide)).1,
   (normalizer_missing_id_kept
      [("kanji_full", .str "火"), ("hiragana_full", .str "ひ")] [vRec]
      (by decide)).2 rfl⟩

theorem masteryParse_always_ok (raw : Json) : ∃ q, masteryParse raw = .ok q := by
  cases h : masteryTryBody raw with
  | ok q => exact ⟨q, by unfold masteryParse; rw [h]⟩
  | error e =>
    obtain rfl := masteryTryBody_err raw e h
    exact ⟨0, by unfold masteryParse; rw [h]⟩

/-! Claim C9: the defensive mastery parse. -/

/-- Claim C9: the mastery parse maps the string 44, the integer 44 and the
percent-suffixed string each to 44.0, maps null and a non-numeric string
to 0.0, and never raises for any input (every JSON value parses to an ok
result). -/
theorem mastery_parse_values :
    (∀ raw : Json, ∃ q, masteryParse raw = .ok q) ∧
    masteryParse (.str "44") = .ok 44 ∧
    masteryParse (.num 44) = .ok 44 ∧
    masteryParse (.str "44%") = .ok 44 ∧
    masteryParse .null = .ok 0 ∧
    masteryParse (.str "not-a-number") = .ok 0 := by
  exact ⟨masteryParse_always_ok, by decide, by decide, by decide, by decide, by decide⟩

/-! Claim C7: schedule-type classification. -/

/-- Claim C7: classification of a non-empty record sequence inspects only
the first record — the tail is arbitrary — and applies the priority order
kanji, vocabulary, grammar, unknown, first match wins; in particular a
kanji-shaped first record followed by a vocabulary-shaped record
classifies as kanji. -/
theorem detect_first_record_only (d : List (String × Json)) (rest : List Json) :
    detect_schedule_type (.arr (.obj d :: rest)) = .ok
      (if dHasKey d "kanji" && dHasKey d "onyomi" then "kanji"
       else if dHasKey d "kanji_full" && dHasKey d "hiragana_full" then "vocabulary"
       else if dHasKey d "title_japanese" && dHasKey d "url" then "grammar"
       else "unknown") ∧
    detect_schedule_type (.arr [kRec, vRec]) = .ok "kanji" := by
  refine ⟨?_, rfl⟩
  unfold detect_schedule_type
  simp only [pyTruthy, pyIndex0, jsonContains, Bind.bind, Except.bind, pure,
    Except.pure, List.isEmpty_cons, Bool.not_false, if_false, ite_false]
  split_ifs <;> simp_all

/-! Claim C8: proficiency-tier detection. -/

theorem jlpt_loop_eq_find (vocab : List (String × Int)) :
    ∀ ls : List Nat, jlpt_loop vocab ls =
      match ls.find? (fun l =>
          (30 : Int) ≤ (((vocab.find? (fun kv => kv.1 == "n" ++ toString l)).map
            (fun kv => kv.2)).getD 0)) with
      | some l => "N" ++ toString l
      | none => "N5"
  | [] => rfl
  | l :: rest => by
    by_cases h : (30 : Int) ≤ (((vocab.find? (fun kv => kv.1 == "n" ++ toString l)).map
        (fun kv => kv.2)).getD 0)
    · simp [jlpt_loop, List.find?, h]
    · simp [jlpt_loop, List.find?, h, jlpt_loop_eq_find vocab rest]

/-- Claim C8: the detected tier is the first of n1, n2, n3, n4, n5 whose
vocabulary-domain progress reaches 30, defaulting to N5; on the mock
progress data n1 0, n2 1, n3 6, n4 31, n5 100 the result is N4. -/
theorem jlpt_detection :
    (∀ lpp, detect_jlpt lpp = firstQualifyingTier lpp) ∧
    detect_jlpt mockLpp = "N4" := by
  refine ⟨?_, rfl⟩
  intro lpp
  unfold detect_jlpt firstQualifyingTier
  exact jlpt_loop_eq_find _ _

/-! Claim C4. The spec says the mastered-vocabulary display list is
deduplicated. The code (src/main.py lines 42-51) appends one entry per
qualifying term with no duplicate check, so a term appearing twice yields
two identical entries. -/

/-- Counterexample to claim C4: a profile holding the same mastered
vocabulary term twice yields the display entry twice and a count of 2 —
the list is not deduplicated. -/
theorem mastered_list_not_deduplicated :
    extract_user_learning_data P4 = .ok ("N5", "水 (みず), 水 (みず)", 2) := by
  decide

theorem mastered_loop_spec :
    ∀ (ts : List Term) (acc : List String),
      (∀ t ∈ ts, ∃ v, t = Term.vocab v) →
      mastered_loop ts acc = .ok (acc ++ mastered_display ts)
  | [], acc, _ => by simp [mastered_loop, mastered_display]
  | t :: rest, acc, h => by
    obtain ⟨v, rfl⟩ := h t (List.mem_cons_self t rest)
    have hrest : ∀ t ∈ rest, ∃ v, t = Term.vocab v :=
      fun t ht => h t (List.mem_cons_of_mem _ ht)
    obtain ⟨q, hq⟩ := masteryParse_always_ok
      (dGetD (term_user_data (Term.vocab v)) "mastery_avg_perc" (.num 0))
    have hmv : mastery_of (Term.vocab v) = q := by
      unfold mastery_of
      rw [hq]
    unfold mastered_loop mastered_display
    simp only [Bind.bind, Except.bind, hq, List.filterMap_cons]
    by_cases hge : (50 : Rat) ≤ q
    · simp [term_kanji_full, term_hiragana_full, hge, hmv,
        mastered_loop_spec rest _ hrest, mastered_display]
    · simp [hge, hmv, mastered_loop_spec rest acc hrest, mastered_display]

/-- Claim C4 as amended: the display list contains one entry per
vocabulary term whose parsed mastery reaches 50, in profile insertion
order, with duplicates retained (the code performs no deduplication), and
the returned count is the length of that list. -/
theorem learning_data_characterization (p : UserProfile)
    (h : ∀ t ∈ p.vocabulary_terms, ∃ v, t = Term.vocab v) :
    extract_user_learning_data p =
      .ok (detect_jlpt p.level_progress_percs,
        String.intercalate ", " (mastered_display p.vocabulary_terms),
        (mastered_display p.vocabulary_terms).length) := by
  unfold extract_user_learning_data
  simp [Bind.bind, Except.bind, mastered_loop_spec p.vocabulary_terms [] h,
    pure, Except.pure]

/-- Witness for the amended claim C4 at the duplicate-bearing profile. -/
theorem learning_data_characterization_witness :
    extract_user_learning_data P4 =
      .ok (detect_jlpt P4.level_progress_percs,
        String.intercalate ", " (mastered_display P4.vocabulary_terms),
        (mastered_display P4.vocabulary_terms).length) :=
  learning_data_characterization P4 (by
    intro t ht
    simp [P4] at ht
    exact ⟨vMastered, ht⟩)

/-! Claim C5: blank credentials fail before any network call. -/

/-- Claim C5: for an empty or whitespace-only credential, profile
extraction fails (returns no profile, the code's authentication-failure
signal) and the request trace is empty — no HTTP request is issued,
whatever the profile endpoint would have answered. -/
theorem blank_credential_fails_before_network (resp : HttpResp) (s : String)
    (h : ∀ c ∈ s.toList, isPySpace c = true) :
    extract_user_profile resp s = ([], none) := by
  have hd : s.toList.dropWhile isPySpace = [] := by
    rw [List.dropWhile_eq_nil_iff]
    exact h
  have hstrip : pyStrip s = "" := by
    unfold pyStrip
    rw [hd]
    rfl
  unfold extract_user_profile
  have hc : (s == "" || pyStrip s == "") = true := by
    rw [hstrip]
    simp
  rw [hc]
  simp

/-- Witness for claim C5 at a whitespace credential. -/
theorem blank_credential_fails_before_network_witness :
    extract_user_profile (.ok 200 (.obj [])) "  " = ([], none) :=
  blank_credential_fails_before_network (.ok 200 (.obj [])) "  " (by decide)

/-! Reduction lemmas for the term-list envelopes. -/

theorem extract_ok200_eq (w : World) (sid : String) (body : Json)
    (h : w.termsResp sid = .ok 200 body) :
    extract_terms_from_schedule w sid =
      (Req.termsList sid :: (handle_terms_body w sid body).1,
       (handle_terms_body w sid body).2) := by
  unfold extract_terms_from_schedule
  rw [h]
  rfl

theorem handle_unpaged_eq (w : World) (sid : String) (items : List Json) :
    handle_terms_body w sid (unpagedBody items) =
      (match process_terms_from_response (Json.arr items) with
       | .error e => ([], .error e)
       | .ok pr => ([], .ok (.tup pr.1 pr.2))) := rfl

theorem handle_flat_eq (w : World) (sid : String) (items : List Json) :
    handle_terms_body w sid (.obj [("terms", .arr items)]) =
      (match process_terms_from_response (Json.arr items) with
       | .error e => ([], .error e)
       | .ok pr => ([], .ok (.tup pr.1 pr.2))) := rfl

theorem handle_paged_eq (w : World) (sid : String) (items : List Json) (N : Nat) :
    handle_terms_body w sid (pagedBody items N) =
      (match process_terms_from_response (Json.arr items) with
       | .error e => ([], .error e)
       | .ok pr =>
         if 1 < ((N : Int)) then
           ((fetch_pages_loop w sid (List.range' 2 (((N : Int)) - 1).toNat) pr.2).1,
            (fetch_pages_loop w sid (List.range' 2 (((N : Int)) - 1).toNat) pr.2).2.map
              (fun all => SchedResult.tup pr.1 all))
         else ([], .ok (.tup pr.1 pr.2))) := rfl

theorem fetch_page_contents_eq (w : World) (sid : String) (k : Nat) (items : List Json)
    (h : w.pageResp sid k = .ok 200 (.obj [("contents", .obj [("terms", .arr items)])])) :
    (fetch_terms_from_page w sid k).2 =
      (match process_terms_from_response (Json.arr items) with
       | .error e => .error e
       | .ok pr => .ok pr.2) := by
  unfold fetch_terms_from_page
  rw [h]
  rfl

theorem fetch_page_no_contents (w : World) (sid : String) (k : Nat)
    (fs : List (String × Json)) (h : w.pageResp sid k = .ok 200 (.obj fs))
    (hc : dHasKey fs "contents" = false) :
    (fetch_terms_from_page w sid k).2 = .ok [] := by
  unfold fetch_terms_from_page
  rw [h]
  simp [jsonContains, hc]

/-! Claim C3. The spec says both response envelopes are handled for every
page fetch. The page-1 handler (lines 352-390) does handle both, but the
page-k fetcher for k at least 2 (lines 422-431) recognizes only the
contents.terms envelope: a flat terms-at-top-level page body yields zero
records with a warning. -/

/-- Counterexample to claim C3: a page-2 response carrying the flat
terms-at-top-level envelope with a processable vocabulary record yields
zero records, although the same record list processes to one term. -/
theorem page2_flat_envelope_dropped :
    (fetch_terms_from_page W3 "s" 2).2 = .ok [] ∧
    process_terms_from_response (.arr [vRec]) = .ok ("vocabulary", [.vocab vTerm]) :=
  ⟨rfl, rfl⟩

/-- Claim C3 as amended: on the page-1 fetch both envelopes yield their
records (and a body matching neither yields zero records with a warning),
but on every page k of at least 2 only the contents.terms envelope yields
records — any other parsed object body, the flat terms envelope included,
yields zero records for that page with a warning. -/
theorem envelope_handling_by_page :
    (∀ (w : World) (sid : String) (items : List Json),
      w.termsResp sid = .ok 200 (unpagedBody items) →
      (extract_terms_from_schedule w sid).2 =
        (process_terms_from_response (.arr items)).map
          (fun pr => SchedResult.tup pr.1 pr.2)) ∧
    (∀ (w : World) (sid : String) (items : List Json),
      w.termsResp sid = .ok 200 (.obj [("terms", .arr items)]) →
      (extract_terms_from_schedule w sid).2 =
        (process_terms_from_response (.arr items)).map
          (fun pr => SchedResult.tup pr.1 pr.2)) ∧
    (∀ (w : World) (sid : String) (fs : List (String × Json)),
      w.termsResp sid = .ok 200 (.obj fs) →
      dHasKey fs "contents" = false → dHasKey fs "terms" = false →
      (extract_terms_from_schedule w sid).2 = .ok (.tup "unknown" [])) ∧
    (∀ (w : World) (sid : String) (k : Nat) (items : List Json),
      w.pageResp sid k = .ok 200 (.obj [("contents", .obj [("terms", .arr items)])]) →
      (fetch_terms_from_page w sid k).2 =
        (process_terms_from_response (.arr items)).map (fun pr => pr.2)) ∧
    (∀ (w : World) (sid : String) (k : Nat) (fs : List (String × Json)),
      w.pageResp sid k = .ok 200 (.obj fs) →
      dHasKey fs "contents" = false →
      (fetch_terms_from_page w sid k).2 = .ok []) := by
  refine ⟨?_, ?_, ?_, ?_, ?_⟩
  · intro w sid items h
    rw [extract_ok200_eq w sid _ h]
    cases hp : process_terms_from_response (.arr items) <;>
      simp [handle_unpaged_eq, hp, Except.map]
  · intro w sid items h
    rw [extract_ok200_eq w sid _ h]
    cases hp : process_terms_from_response (.arr items) <;>
      simp [handle_flat_eq, hp, Except.map]
  · intro w sid fs h h1 h2
    rw [extract_ok200_eq w sid _ h]
    simp [handle_terms_body, jsonContains, h1, h2]
  · intro w sid k items h
    rw [fetch_page_contents_eq w sid k items h]
    cases hp : process_terms_from_response (.arr items) <;> simp [hp, Except.map]
  · intro w sid k fs h hc
    exact fetch_page_no_contents w sid k fs h hc

/-- Witness for the amended claim C3, exercising all five envelope cases
in the world `W3w`. -/
theorem envelope_handling_by_page_witness :
    (extract_terms_from_schedule W3w "a").2 =
      (process_terms_from_response (.arr [vRec])).map
        (fun pr => SchedResult.tup pr.1 pr.2) ∧
    (extract_terms_from_schedule W3w "b").2 =
      (process_terms_from_response (.arr [vRec2])).map
        (fun pr => SchedResult.tup pr.1 pr.2) ∧
    (extract_terms_from_schedule W3w "c").2 = .ok (.tup "unknown" []) ∧
    (fetch_terms_from_page W3w "a" 2).2 =
      (process_terms_from_response (.arr [vRec2])).map (fun pr => pr.2) ∧
    (fetch_terms_from_page W3w "a" 3).2 = .ok [] :=
  ⟨envelope_handling_by_page.1 W3w "a" [vRec] rfl,
   envelope_handling_by_page.2.1 W3w "b" [vRec2] rfl,
   envelope_handling_by_page.2.2.1 W3w "c" [("other", .num 1)] rfl (by decide) (by decide),
   envelope_handling_by_page.2.2.2.1 W3w "a" 2 [vRec2] rfl,
   envelope_handling_by_page.2.2.2.2 W3w "a" 3 [("terms", .arr [vRec])] rfl (by decide)⟩

/-! Claim C6: pagination. -/

theorem fetch_pages_loop_spec (w : World) (sid : String) :
    ∀ (pages : List Nat) (acc : List Term),
      (∀ k ∈ pages, ∃ ts, (fetch_terms_from_page w sid k).2 = .ok ts) →
      fetch_pages_loop w sid pages acc =
        (pages.map (Req.termsPage sid),
         .ok (acc ++ (pages.map (pageYield w sid)).flatten))
  | [], acc, _ => by simp [fetch_pages_loop]
  | pg :: rest, acc, h => by
    obtain ⟨ts, hts⟩ := h pg (List.mem_cons_self pg rest)
    have hy : pageYield w sid pg = ts := by
      unfold pageYield
      rw [hts]
    have hrest : ∀ k ∈ rest, ∃ ts, (fetch_terms_from_page w sid k).2 = .ok ts :=
      fun k hk => h k (List.mem_cons_of_mem _ hk)
    unfold fetch_pages_loop
    rw [hts]
    simp [fetch_terms_from_page, hy,
      fetch_pages_loop_spec w sid rest (acc ++ ts) hrest]

/-- Claim C6: when page 1 reports total_pg N greater than 1, exactly N
page fetches occur — page 1 then pages 2..N in strictly increasing order —
the schedule yield is page 1's terms followed by the per-page yields in
order, and its count is the sum of the per-page counts, where a page
answered by a non-success status or an unparsable body contributes zero
records without stopping the later pages; when the page-1 response omits
pagination metadata, exactly one page is fetched. -/
theorem extract_terms_pagination (w : World) (sid : String) :
    (∀ (items : List Json) (N : Nat) (ty : String) (ts1 : List Term),
      1 < N →
      w.termsResp sid = .ok 200 (pagedBody items N) →
      process_terms_from_response (.arr items) = .ok (ty, ts1) →
      (∀ k ∈ List.range' 2 (N - 1), ∃ ts, (fetch_terms_from_page w sid k).2 = .ok ts) →
      extract_terms_from_schedule w sid =
        (Req.termsList sid :: (List.range' 2 (N - 1)).map (Req.termsPage sid),
         .ok (.tup ty (ts1 ++ ((List.range' 2 (N - 1)).map (pageYield w sid)).flatten))) ∧
      (ts1 ++ ((List.range' 2 (N - 1)).map (pageYield w sid)).flatten).length =
        ts1.length +
          (((List.range' 2 (N - 1)).map (fun k => (pageYield w sid k).length)).sum)) ∧
    (∀ items : List Json,
      w.termsResp sid = .ok 200 (unpagedBody items) →
      (extract_terms_from_schedule w sid).1 = [Req.termsList sid]) := by
  constructor
  · intro items N ty ts1 hN hresp hp hpages
    have hcast : (1 : Int) < (N : Int) := by exact_mod_cast hN
    have htn : (((N : Int)) - 1).toNat = N - 1 := by omega
    constructor
    · rw [extract_ok200_eq w sid _ hresp, handle_paged_eq, hp]
      simp only [htn, if_pos hcast,
        fetch_pages_loop_spec w sid (List.range' 2 (N - 1)) ts1 hpages]
      simp [Except.map]
    · simp [List.length_flatten, List.map_map, Function.comp_def]
  · intro items h
    rw [extract_ok200_eq w sid _ h]
    cases hp : process_terms_from_response (.arr items) <;>
      simp [handle_unpaged_eq, hp]

/-- Witness for claim C6: in `W6` schedule s reports three pages, page 2
yields one record and page 3 fails with status 500; in `W6s` the response
omits pagination metadata. -/
theorem extract_terms_pagination_witness :
    extract_terms_from_schedule W6 "s" =
      (Req.termsList "s" :: (List.range' 2 2).map (Req.termsPage "s"),
       .ok (.tup "vocabulary"
         ([.vocab vTerm] ++ ((List.range' 2 2).map (pageYield W6 "s")).flatten))) ∧
    (extract_terms_from_schedule W6s "s").1 = [Req.termsList "s"] := by
  refine ⟨((extract_terms_pagination W6 "s").1 [vRec] 3 "vocabulary" [.vocab vTerm]
      (by decide) rfl rfl ?_).1,
    (extract_terms_pagination W6s "s").2 [vRec] rfl⟩
  intro k hk
  simp [List.range'] at hk
  rcases hk with rfl | rfl
  · exact ⟨[.vocab vTerm2], rfl⟩
  · exact ⟨[], rfl⟩

/-! Claim C10: frame conditions and totality of `extract_study_terms`. -/

theorem profileExtends_refl (p : UserProfile) : ProfileExtends p p :=
  ⟨rfl, rfl, rfl, ⟨[], (List.append_nil _).symm⟩, ⟨[], (List.append_nil _).symm⟩,
   ⟨[], (List.append_nil _).symm⟩⟩

theorem profileExtends_trans {p q r : UserProfile}
    (h1 : ProfileExtends p q) (h2 : ProfileExtends q r) : ProfileExtends p r := by
  obtain ⟨hi1, hn1, hl1, ⟨s1, hv1⟩, ⟨s2, hk1⟩, ⟨s3, hg1⟩⟩ := h1
  obtain ⟨hi2, hn2, hl2, ⟨t1, hv2⟩, ⟨t2, hk2⟩, ⟨t3, hg2⟩⟩ := h2
  refine ⟨hi2.trans hi1, hn2.trans hn1, hl2.trans hl1,
    ⟨s1 ++ t1, ?_⟩, ⟨s2 ++ t2, ?_⟩, ⟨s3 ++ t3, ?_⟩⟩
  · rw [hv2, hv1, List.append_assoc]
  · rw [hk2, hk1, List.append_assoc]
  · rw [hg2, hg1, List.append_assoc]

theorem applyTerms_extends (p : UserProfile) (ty : String) (ts : List Term) :
    ProfileExtends p (applyTerms p ty ts) := by
  unfold applyTerms
  split_ifs <;>
    refine ⟨rfl, rfl, rfl, ?_, ?_, ?_⟩ <;>
      first
        | exact ⟨ts, rfl⟩
        | exact ⟨[], (List.append_nil _).symm⟩

theorem processOneSchedule_extends (w : World) (sched : Json) (p q : UserProfile)
    (h : processOneSchedule w sched p = .ok q) : ProfileExtends p q := by
  unfold processOneSchedule at h
  split at h
  · exact Except.noConfusion h
  · injection h with h2
    subst h2
    exact profileExtends_refl p
  · injection h with h2
    subst h2
    exact applyTerms_extends p _ _

theorem schedules_loop_extends (w : World) :
    ∀ (items : List Json) (p : UserProfile),
      (∀ q, schedules_loop w items p = .ok q → ProfileExtends p q) ∧
      (∀ e pr, schedules_loop w items p = .error (e, pr) → ProfileExtends p pr)
  | [], p => by
    constructor
    · intro q h
      unfold schedules_loop at h
      injection h with h2
      subst h2
      exact profileExtends_refl p
    · intro e pr h
      unfold schedules_loop at h
      exact Except.noConfusion h
  | sched :: rest, p => by
    constructor
    · intro q h
      unfold schedules_loop at h
      split at h
      · exact Except.noConfusion h
      · rename_i p' hp'
        exact profileExtends_trans (processOneSchedule_extends w sched p p' hp')
          ((schedules_loop_extends w rest p').1 q h)
    · intro e pr h
      unfold schedules_loop at h
      split at h
      · rename_i e' he'
        injection h with h2
        injection h2 with h3 h4
        subst h4
        exact profileExtends_refl p
      · rename_i p' hp'
        exact profileExtends_trans (processOneSchedule_extends w sched p p' hp')
          ((schedules_loop_extends w rest p').2 e pr h)

theorem extract_study_terms_netErr (w : World) (p : UserProfile)
    (hs : w.schedulesResp = .netErr) : extract_study_terms w p = some p := by
  unfold extract_study_terms
  rw [hs]

theorem extract_study_terms_badJson (w : World) (p : UserProfile) (status : Nat)
    (hs : w.schedulesResp = .badJson status) :
    extract_study_terms w p = if status != 200 then none else some p := by
  unfold extract_study_terms
  rw [hs]

theorem extract_study_terms_okResp (w : World) (p : UserProfile) (status : Nat)
    (body : Json) (hs : w.schedulesResp = .ok status body) :
    extract_study_terms w p =
      (if status != 200 then none
       else
         match jsonLen (parse_schedules_response body) with
         | .error _ => some p
         | .ok _ =>
           match jsonIter (parse_schedules_response body) with
           | .error _ => some p
           | .ok items =>
             match schedules_loop w items p with
             | .ok p' => some p'
             | .error er => some er.2) := by
  unfold extract_study_terms
  rw [hs]

/-- Claim C10: `extract_study_terms` never propagates an exception (it is
total over every world), returns `None` exactly when the schedule-list
fetch completed with a non-200 status, otherwise returns the profile with
its identity fields unchanged and each term list only extended at its end;
an unknown-classified schedule extends none of the lists. -/
theorem extract_study_terms_frame (w : World) (p : UserProfile) :
    (extract_study_terms w p = none ↔ scheduleListNon200 w = true) ∧
    (∀ q, extract_study_terms w p = some q → ProfileExtends p q) ∧
    (∀ (q : UserProfile) (ts : List Term), applyTerms q "unknown" ts = q) := by
  refine ⟨?_, ?_, fun q ts => rfl⟩
  · cases hs : w.schedulesResp with
    | netErr =>
      rw [extract_study_terms_netErr w p hs]
      unfold scheduleListNon200
      rw [hs]
      simp
    | badJson status =>
      rw [extract_study_terms_badJson w p status hs]
      unfold scheduleListNon200
      rw [hs]
      cases hb : (status != 200) <;> simp [hb]
    | ok status body =>
      rw [extract_study_terms_okResp w p status body hs]
      unfold scheduleListNon200
      rw [hs]
      cases hb : (status != 200) <;> simp only [hb]
      · simp only [Bool.false_eq_true, if_false, iff_false, ite_false]
        split
        · simp
        · split
          · simp
          · split <;> simp
      · simp
  · intro q h
    cases hs : w.schedulesResp
    case netErr =>
      rw [extract_study_terms_netErr w p hs] at h
      injection h with h2
      subst h2
      exact profileExtends_refl p
    case badJson status =>
      rw [extract_study_terms_badJson w p status hs] at h
      cases hb : (status != 200) <;> rw [hb] at h
      · simp only [Bool.false_eq_true, if_false, ite_false] at h
        injection h with h2
        subst h2
        exact profileExtends_refl p
      · simp only [if_true, ite_true] at h
        exact Option.noConfusion h
    case ok status body =>
      rw [extract_study_terms_okResp w p status body hs] at h
      cases hb : (status != 200) <;> rw [hb] at h
      · simp only [Bool.false_eq_true, if_false, ite_false] at h
        split at h
        · injection h with h2
          subst h2
          exact profileExtends_refl p
        · split at h
          · injection h with h2
            subst h2
            exact profileExtends_refl p
          · split at h
            · rename_i p' hp'
              injection h with h2
              subst h2
              exact (schedules_loop_extends w _ p).1 _ hp'
            · rename_i er her
              injection h with h2
              subst h2
              exact (schedules_loop_extends w _ p).2 er.1 er.2 (by rw [← her])
      · simp only [if_true, ite_true] at h
        exact Option.noConfusion h

/-- Witness for claim C10: a non-200 schedule list yields `None`, and a
successful run extends the input profile. -/
theorem extract_study_terms_frame_witness :
    extract_study_terms WNon emptyP = none ∧ ProfileExtends emptyP emptyP :=
  ⟨(extract_study_terms_frame WNon emptyP).1.mpr rfl,
   (extract_study_terms_frame W1 emptyP).2.1 emptyP rfl⟩

end Renshuu
